import Mathlib

/-!
Verification development for the `postgresql_analyzer` data-quality engine.

The analysis layer of the repository (`analysis/missing_checker.py`,
`analysis/duplicate_checker.py`, `analysis/date_gap_finder.py`) issues
aggregate SQL against a PostgreSQL database and classifies the results with
fixed severity thresholds.  This file gives a shallow embedding of that
layer: a table is a list of rows (each row a list of nullable cells),
aggregate queries become list computations with the same semantics
(COUNT of NULLs, GROUP BY / HAVING COUNT(*) > 1, generate_series bucket
sets), and the Python control flow of each checker becomes a Lean
function.  Severity strings become the `Severity` inductive; Python float
percentages become exact rationals.
-/

namespace PGAnalyzer

/-- Severity strings used throughout the analysis layer: the four-level
scale `low < medium < high < critical`, plus the out-of-band values
`error` (a check failed) and `info` (check not applicable). -/
inductive Severity
  | low
  | medium
  | high
  | critical
  | error
  | info
deriving DecidableEq, Repr, Inhabited

/-- Rank of a severity within the four-level scale (used to state
"maximum severity" roll-up properties; `error` is out of band and above,
`info` is out of band and treated as not ranked). -/
def sevRank : Severity → Nat
  | .low => 0
  | .medium => 1
  | .high => 2
  | .critical => 3
  | .error => 4
  | .info => 0

/-- One entry of `information_schema.columns` as consumed by the checkers:
`column_name`, `data_type`, and the `is_nullable` flag, which PostgreSQL
reports as the string `"YES"` or `"NO"`. -/
structure Column where
  column_name : String
  data_type : String
  is_nullable : String
deriving DecidableEq, Repr

/-- A database table as the checkers see it: its column metadata, its
declared primary-key column names (from `get_table_structure`), and its
rows.  A cell is `Option Nat`: `none` models SQL NULL.  The row count the
schema reader returns (`SELECT COUNT(*)`) is `rows.length`. -/
structure Table where
  columns : List Column
  primary_keys : List String
  rows : List (List (Option Nat))
deriving DecidableEq, Repr

/-- Index of a named column in the column list of the table (SQL resolves
column references by name). -/
def colIndex (t : Table) (name : String) : Option Nat :=
  t.columns.findIdx? (fun c => c.column_name == name)

/-- Projection of a row onto a list of column names, as a GROUP BY key.
A reference to a column the table does not have reads as NULL (the real
query would fail instead; the claims only use names drawn from the
metadata of the table itself). -/
def projKey (t : Table) (names : List String) (row : List (Option Nat)) :
    List (Option Nat) :=
  names.map (fun n =>
    match colIndex t n with
    | some j => row.getD j none
    | none => none)

/-- Floor of a rational, written with `Int.fdiv` so that it evaluates
by kernel reduction (`q.den` is positive and `q.num / q.den` is in
lowest terms, so floor division of numerator by denominator is the
mathematical floor). -/
def ratFloor (q : ℚ) : ℤ :=
  q.num.fdiv q.den

/-- Python `round(x, 2)` (half to even) modelled on
exact rationals. -/
def pyRound2 (q : ℚ) : ℚ :=
  let s := q * 100
  let f : ℤ := ratFloor s
  let frac : ℚ := s - f
  let r : ℤ :=
    if frac < 1/2 then f
    else if frac > 1/2 then f + 1
    else if f % 2 = 0 then f else f + 1
  (r : ℚ) / 100

namespace Missing

/-- Source method of `MissingValueChecker` for severity: fixed thresholds on the
missing-value percentage. -/
def calculate_severity (p : ℚ) : Severity :=
  if p ≥ 50 then .critical
  else if p ≥ 20 then .high
  else if p ≥ 5 then .medium
  else .low

/-- The percentage computed in `check_table_missing_values`:
`(null_count / total_rows) * 100 if total_rows > 0 else 0`. -/
def missingPercentage (nullCount totalRows : Nat) : ℚ :=
  if totalRows > 0 then ((nullCount : ℚ) / (totalRows : ℚ)) * 100 else 0

/-- Query `SELECT COUNT(*) FROM t WHERE col IS NULL` for the column at index
`j`.  A row shorter than `j` cannot occur for well-formed tables; it is
read as NULL. -/
def nullCount (t : Table) (j : Nat) : Nat :=
  (t.rows.filter (fun r => (r.getD j none).isNone)).length

/-- One element of the missing_details list.  The stored
percentage is the Python `round(missing_percentage, 2)`; the severity is
computed from the unrounded value.  `is_nullable` is the Python boolean
comparing the nullability flag with YES, always false on this path. -/
structure ColumnDetail where
  column_name : String
  data_type : String
  null_count : Nat
  missing_percentage : ℚ
  is_nullable : Bool
  severity : Severity
deriving DecidableEq, Repr

/-- Body of the per-column loop of `check_table_missing_values`: skip
nullable columns; count NULLs; only columns with `null_count > 0`
produce a detail entry. -/
def analyzeColumn (t : Table) (j : Nat) (c : Column) : Option ColumnDetail :=
  if c.is_nullable == "YES" then none
  else
    let n := nullCount t j
    if 0 < n then
      let p := missingPercentage n t.rows.length
      some ⟨c.column_name, c.data_type, n, pyRound2 p, false, calculate_severity p⟩
    else none

/-- Overall table severity, lines 83–93 of `missing_checker.py`: starts
at `low`; if any detail exists, upgraded by the critical/high/medium
containment chain, with an explicit `else: low`. -/
def tableSeverity (details : List ColumnDetail) : Severity :=
  if details.isEmpty then .low
  else
    let sevs := details.map ColumnDetail.severity
    if Severity.critical ∈ sevs then .critical
    else if Severity.high ∈ sevs then .high
    else if Severity.medium ∈ sevs then .medium
    else .low

/-- The success-path result dictionary of `check_table_missing_values`
(table/schema name strings omitted: they are carried through
unchanged). -/
structure TableMissing where
  total_rows : Nat
  columns_analyzed : Nat
  columns_with_missing : Nat
  missing_details : List ColumnDetail
  severity : Severity
deriving DecidableEq, Repr

/-- Source `check_table_missing_values` (success path).  `columns_analyzed` is
set to `len(columns)` before the loop; `columns_with_missing` is
incremented exactly when a detail is appended, hence equals the number
of details. -/
def check_table_missing_values (t : Table) : TableMissing :=
  let details := t.columns.enum.filterMap (fun jc => analyzeColumn t jc.1 jc.2)
  { total_rows := t.rows.length
    columns_analyzed := t.columns.length
    columns_with_missing := details.length
    missing_details := details
    severity := tableSeverity details }

/-- Outcome of one per-table check inside the schema loop: the Python
function catches every exception and returns either the analysis dict or
an error dict carrying the message and severity error. -/
inductive TableResult
  | ok (r : TableMissing)
  | err (msg : String)
deriving DecidableEq, Repr

/-- Reading the severity key of a per-table result. -/
def resultSeverity : TableResult → Severity
  | .ok r => r.severity
  | .err _ => .error

/-- Reading the columns_with_missing key; the error dict lacks this
key and the code only reads it behind the severity guard,
so the value returned for `err` is never observed. -/
def resultColumnsWithMissing : TableResult → Nat
  | .ok r => r.columns_with_missing
  | .err _ => 0

/-- The schema-level result dictionary of `check_schema_missing_values`.
The success path never writes a `severity` key into it, which the
`Option` records (`none` = key absent). -/
structure SchemaMissing where
  total_tables : Nat
  tables_analyzed : Nat
  tables_with_missing : Nat
  critical_issues : Nat
  high_issues : Nat
  medium_issues : Nat
  low_issues : Nat
  table_results : List TableResult
  severity : Option Severity
deriving DecidableEq, Repr

/-- Initial accumulator of the schema loop. -/
def schemaInit (n : Nat) : SchemaMissing :=
  { total_tables := n
    tables_analyzed := 0
    tables_with_missing := 0
    critical_issues := 0
    high_issues := 0
    medium_issues := 0
    low_issues := 0
    table_results := []
    severity := none }

/-- One iteration of the schema loop, lines 131–152 of
`missing_checker.py`: always record the result and bump
`tables_analyzed`; behind the guard excluding severity error, bump
`tables_with_missing` when the table had missing columns and tally the
severity of the table into exactly one of the four counters. -/
def schemaStep (acc : SchemaMissing) (tr : TableResult) : SchemaMissing :=
  let acc1 := { acc with
    table_results := acc.table_results ++ [tr]
    tables_analyzed := acc.tables_analyzed + 1 }
  if resultSeverity tr = .error then acc1
  else
    let acc2 :=
      if 0 < resultColumnsWithMissing tr then
        { acc1 with tables_with_missing := acc1.tables_with_missing + 1 }
      else acc1
    match resultSeverity tr with
    | .critical => { acc2 with critical_issues := acc2.critical_issues + 1 }
    | .high => { acc2 with high_issues := acc2.high_issues + 1 }
    | .medium => { acc2 with medium_issues := acc2.medium_issues + 1 }
    | .low => { acc2 with low_issues := acc2.low_issues + 1 }
    | _ => acc2

/-- Source `check_schema_missing_values`, success path, parametric over the
per-table outcomes (one per table of the schema, in order). -/
def check_schema_missing_values (os : List TableResult) : SchemaMissing :=
  os.foldl schemaStep (schemaInit os.length)

/-- A table counts toward `tables_with_missing`: it passed the
error guard and had at least one column with missing values. -/
def tallyMissing (tr : TableResult) : Bool :=
  resultSeverity tr != .error && 0 < resultColumnsWithMissing tr

/-- A table counts toward the per-severity tally for `s`. -/
def tallySev (s : Severity) (tr : TableResult) : Bool :=
  resultSeverity tr != .error && resultSeverity tr == s

end Missing

namespace Dup

/-- Source method of `DuplicateChecker` for severity: fixed thresholds on the
duplicate percentage, shared by the general and business-key checks. -/
def calculate_severity (p : ℚ) : Severity :=
  if p ≥ 30 then .critical
  else if p ≥ 15 then .high
  else if p ≥ 5 then .medium
  else .low

/-- The percentage computed in `check_table_duplicates` and
`check_business_key_duplicates`:
`(total_duplicate_rows / total_rows) * 100 if total_rows > 0 else 0`. -/
def duplicatePercentage (tdr totalRows : Nat) : ℚ :=
  if totalRows > 0 then ((tdr : ℚ) / (totalRows : ℚ)) * 100 else 0

/-- Query `SELECT cols, COUNT(*) ... GROUP BY cols HAVING COUNT(*) > 1`: one
entry per distinct key occurring more than once, with its row count.
The ORDER BY duplicate_count DESC clause only permutes the list; the
embedding keeps first-occurrence order, which leaves every aggregate the
checkers compute (sum, length) unchanged. -/
def duplicateGroups (t : Table) (names : List String) :
    List (List (Option Nat) × Nat) :=
  let ks := t.rows.map (projKey t names)
  ks.dedup.filterMap (fun k =>
    let c := ks.count k
    if 1 < c then some (k, c) else none)

/-- The result dictionary of `check_table_duplicates` (success path;
identity strings omitted).  `duplicate_percentage` stores the Python
`round(x, 2)`; severity is computed from the unrounded value. -/
structure DupAnalysis where
  columns_checked : List String
  total_rows : Nat
  total_duplicate_groups : Nat
  total_duplicate_rows : Nat
  duplicate_percentage : ℚ
  severity : Severity
  duplicate_details : List (List (Option Nat) × Nat)
deriving DecidableEq, Repr

/-- Source `check_table_duplicates` (success path): group by all columns, or by
a caller-supplied subset when `cols` is given. -/
def check_table_duplicates (t : Table) (cols : Option (List String)) :
    DupAnalysis :=
  let names := cols.getD (t.columns.map Column.column_name)
  let groups := duplicateGroups t names
  let tdr := (groups.map Prod.snd).sum
  let pct := duplicatePercentage tdr t.rows.length
  { columns_checked := names
    total_rows := t.rows.length
    total_duplicate_groups := groups.length
    total_duplicate_rows := tdr
    duplicate_percentage := pyRound2 pct
    severity := calculate_severity pct
    duplicate_details := groups }

/-- The result dictionary of `check_primary_key_duplicates` (success
path).  The no-primary-key dict has no `duplicate_details` key; the
embedding stores `[]` there, which no caller distinguishes. -/
structure PKAnalysis where
  primary_keys : List String
  has_primary_key : Bool
  duplicate_count : Nat
  duplicate_details : List (List (Option Nat) × Nat)
  severity : Severity
deriving DecidableEq, Repr

/-- Source `check_primary_key_duplicates` (success path): no declared primary
key reports `info` with no further work; otherwise severity is
`critical` exactly when some PK group with count > 1 exists, else
`low`, and `duplicate_count` is the number of such groups. -/
def check_primary_key_duplicates (t : Table) : PKAnalysis :=
  if t.primary_keys.isEmpty then
    { primary_keys := []
      has_primary_key := false
      duplicate_count := 0
      duplicate_details := []
      severity := .info }
  else
    let groups := duplicateGroups t t.primary_keys
    { primary_keys := t.primary_keys
      has_primary_key := true
      duplicate_count := groups.length
      duplicate_details := groups
      severity := if groups.isEmpty then .low else .critical }

/-- Result of `check_business_key_duplicates`: either the
no-configured-business-keys dict (severity `info`,
`has_business_keys=false`) or an analysis with the same group/having
logic and the same severity function as the general check. -/
inductive BKResult
  | noKeys
  | ok (a : DupAnalysis)
deriving DecidableEq, Repr

/-- Reading the severity key of a business-key result, default low. -/
def bkSeverity : BKResult → Severity
  | .noKeys => .info
  | .ok a => a.severity

/-- Reading the total_duplicate_rows key, default 0: the no-keys dict lacks
the key, so the default 0 applies. -/
def bkTotalDuplicateRows : BKResult → Nat
  | .noKeys => 0
  | .ok a => a.total_duplicate_rows

/-- Source `check_business_key_duplicates` (success path), with the business
keys already resolved from the (caller-supplied or default) per-table
mapping: `business_keys.get(table_name, [])`. -/
def check_business_key_duplicates (t : Table) (keys : List String) : BKResult :=
  if keys.isEmpty then .noKeys
  else
    let groups := duplicateGroups t keys
    let tdr := (groups.map Prod.snd).sum
    let pct := duplicatePercentage tdr t.rows.length
    .ok
      { columns_checked := keys
        total_rows := t.rows.length
        total_duplicate_groups := groups.length
        total_duplicate_rows := tdr
        duplicate_percentage := pyRound2 pct
        severity := calculate_severity pct
        duplicate_details := groups }

/-- What the schema-duplicates loop reads from the result
dict of each sub-check: the severity key (default low) and the
total_duplicate_rows key (default 0).
The primary-key dict never has a `total_duplicate_rows` key, so its
outcome always carries 0 there. -/
structure SubCheckOutcome where
  severity : Severity
  total_duplicate_rows : Nat
deriving DecidableEq, Repr

/-- View of a general-duplicates result as seen by the schema loop. -/
def generalOutcome (a : DupAnalysis) : SubCheckOutcome :=
  ⟨a.severity, a.total_duplicate_rows⟩

/-- View of a primary-key result as seen by the schema loop: its dict
has no `total_duplicate_rows` key, so `.get` yields the default 0. -/
def pkOutcome (a : PKAnalysis) : SubCheckOutcome :=
  ⟨a.severity, 0⟩

/-- View of a business-key result as seen by the schema loop. -/
def bkOutcome (r : BKResult) : SubCheckOutcome :=
  ⟨bkSeverity r, bkTotalDuplicateRows r⟩

/-- View of an exception result (an error dict with severity error)
of any sub-check as seen by the schema loop. -/
def errOutcome : SubCheckOutcome :=
  ⟨.error, 0⟩

/-- The three sub-check outcomes of one table: general, primary-key,
business-key (in that order). -/
abbrev TableTriple := SubCheckOutcome × SubCheckOutcome × SubCheckOutcome

/-- The `severities` list built at lines 268–272 of
`duplicate_checker.py`. -/
def triSevs (tri : TableTriple) : List Severity :=
  [tri.1.severity, tri.2.1.severity, tri.2.2.severity]

/-- The schema-level result dictionary of `check_schema_duplicates`
(success path). -/
structure SchemaDup where
  total_tables : Nat
  tables_analyzed : Nat
  tables_with_duplicates : Nat
  critical_issues : Nat
  high_issues : Nat
  medium_issues : Nat
  low_issues : Nat
  table_results : List TableTriple
deriving DecidableEq, Repr

/-- Initial accumulator of the schema-duplicates loop. -/
def dupInit (n : Nat) : SchemaDup :=
  { total_tables := n
    tables_analyzed := 0
    tables_with_duplicates := 0
    critical_issues := 0
    high_issues := 0
    medium_issues := 0
    low_issues := 0
    table_results := [] }

/-- One iteration of the schema-duplicates loop, lines 244–285: always
record and bump `tables_analyzed`; if none of the three severities is
`error`, bump `tables_with_duplicates` when the general or business-key
check reported duplicate rows (the primary-key dict is not consulted
there), and tally the highest of the three severities. -/
def dupStep (acc : SchemaDup) (tri : TableTriple) : SchemaDup :=
  let acc1 := { acc with
    table_results := acc.table_results ++ [tri]
    tables_analyzed := acc.tables_analyzed + 1 }
  if Severity.error ∈ triSevs tri then acc1
  else
    let acc2 :=
      if 0 < tri.1.total_duplicate_rows ∨ 0 < tri.2.2.total_duplicate_rows then
        { acc1 with tables_with_duplicates := acc1.tables_with_duplicates + 1 }
      else acc1
    if Severity.critical ∈ triSevs tri then
      { acc2 with critical_issues := acc2.critical_issues + 1 }
    else if Severity.high ∈ triSevs tri then
      { acc2 with high_issues := acc2.high_issues + 1 }
    else if Severity.medium ∈ triSevs tri then
      { acc2 with medium_issues := acc2.medium_issues + 1 }
    else if Severity.low ∈ triSevs tri then
      { acc2 with low_issues := acc2.low_issues + 1 }
    else acc2

/-- Source `check_schema_duplicates`, success path, parametric over the three
sub-check outcomes of each table of the schema, in order. -/
def check_schema_duplicates (ts : List TableTriple) : SchemaDup :=
  ts.foldl dupStep (dupInit ts.length)

/-- Whether a table passed the guard requiring error not in severities. -/
def errorFree (tri : TableTriple) : Bool :=
  !(triSevs tri).contains .error

end Dup

namespace Gap

/-- One gap entry for a daily column: `expected_date`, the following
day, and the constant one-day gap length the query computes as
adding one day to the expected date and subtracting it again. -/
structure DateGap where
  start_date : Nat
  end_date : Nat
  gap_days : ℚ
deriving DecidableEq, Repr

/-- The daily branch of `_find_gaps_for_interval`.  Dates are modelled
as day numbers; `DATE(col)` is the value itself.  The CTE `date_series`
calls generate_series with a one-day step from DATE(col) to DATE(col) — the
same expression for both bounds — grouped by `DATE(col)`, so it yields
exactly the distinct observed dates; `actual_dates` is the same distinct
set; the result keeps the series entries with no matching actual date.
The `min_date`/`max_date` arguments the Python method receives are never
used by the query and therefore do not appear here. -/
def dailyGaps (vals : List (Option Nat)) : List DateGap :=
  let actual := (vals.filterMap id).dedup
  let series := (vals.filterMap id).dedup
  (series.filter (fun d => decide (d ∉ actual))).map (fun d => ⟨d, d + 1, 1⟩)

/-- Source method of `DateGapFinder` for gap severity: thresholds on total gap
count and total gap-days. -/
def calculate_gap_severity (total_gaps : Nat) (total_gap_days : ℚ) : Severity :=
  if total_gaps ≥ 10 ∨ total_gap_days ≥ 30 then .critical
  else if total_gaps ≥ 5 ∨ total_gap_days ≥ 7 then .high
  else if total_gaps ≥ 2 ∨ total_gap_days ≥ 3 then .medium
  else .low

/-- The success-path result dictionary of `find_gaps_in_date_column` for
a daily column (identity strings omitted; `total_days` is
`(max_date - min_date).days`). -/
structure GapAnalysis where
  expected_interval : String
  min_date : Nat
  max_date : Nat
  total_days : Nat
  total_records : Nat
  total_gaps : Nat
  total_gap_days : ℚ
  gaps : List DateGap
  severity : Severity
deriving DecidableEq, Repr

/-- Result of `find_gaps_in_date_column`: either the analysis dict or
the no-valid-dates error
dict (severity error) returned when MIN/MAX over the non-null values are NULL. -/
inductive GapColumnResult
  | noDates (msg : String)
  | ok (a : GapAnalysis)
deriving DecidableEq, Repr

/-- Reading the severity key of a column analysis, default low: both variants carry a
severity key; the no-valid-dates dict carries error. -/
def gapColumnSeverity : GapColumnResult → Severity
  | .noDates _ => .error
  | .ok a => a.severity

/-- Reading the total_gaps key of a column analysis, default 0: the no-valid-dates dict
lacks the key, so the default 0 applies. -/
def gapColumnTotalGaps : GapColumnResult → Nat
  | .noDates _ => 0
  | .ok a => a.total_gaps

/-- Source `find_gaps_in_date_column` for a daily column, over the
cell values of the column.  `MIN`/`MAX`/`COUNT(*)` are taken over the non-null values
(the query filters `col IS NOT NULL`); when either bound is NULL the
error dict is returned. -/
def find_gaps_in_date_column (vals : List (Option Nat)) : GapColumnResult :=
  let nonNull := vals.filterMap id
  match nonNull.min?, nonNull.max? with
  | some mn, some mx =>
      let gaps := dailyGaps vals
      let tg := gaps.length
      let tgd := (gaps.map DateGap.gap_days).sum
      .ok
        { expected_interval := "daily"
          min_date := mn
          max_date := mx
          total_days := mx - mn
          total_records := nonNull.length
          total_gaps := tg
          total_gap_days := tgd
          gaps := gaps
          severity := calculate_gap_severity tg tgd }
  | _, _ => .noDates ("No valid dates found in column")

/-- Modelled from the spec: the intended daily expected-bucket set is
the full sequence of days from the observed minimum to the observed
maximum inclusive, and a gap is any expected day containing zero rows,
reported as `[day, day + 1)` with one gap-day.  (The original
`generate_series` call passes the same expression for both bounds and
ignores the `min_date`/`max_date` parameters of
`_find_gaps_for_interval`, so this intent is taken from the spec and
from those parameters.) -/
def specDailyGaps (vals : List (Option Nat)) : List DateGap :=
  let nonNull := vals.filterMap id
  match nonNull.min?, nonNull.max? with
  | some mn, some mx =>
      (((List.range (mx + 1 - mn)).map (fun k => mn + k)).filter
          (fun d => decide (d ∉ nonNull))).map (fun d => ⟨d, d + 1, 1⟩)
  | _, _ => []

/-- The per-table result dictionary of `find_gaps_in_table` when date
columns exist. -/
structure TableGapAnalysis where
  date_columns_found : Nat
  column_analyses : List GapColumnResult
  total_gaps : Nat
  severity : Severity
deriving DecidableEq, Repr

/-- Result of `find_gaps_in_table`: the no-date-columns dict (a message
and `date_columns_found: 0`, with no severity key) or the analysis. -/
inductive TableGapResult
  | noDateColumns (message : String)
  | ok (a : TableGapAnalysis)
deriving DecidableEq, Repr

/-- Lines 306–313 of `date_gap_finder.py`: table severity starts at
`low` and is upgraded only by `critical`, `high` or `medium` among the
per-column severities; any other value (`low`, `error`) leaves it at
`low`. -/
def gapTableSeverity (rs : List GapColumnResult) : Severity :=
  let sevs := rs.map gapColumnSeverity
  if Severity.critical ∈ sevs then .critical
  else if Severity.high ∈ sevs then .high
  else if Severity.medium ∈ sevs then .medium
  else .low

/-- Source `find_gaps_in_table`, parametric over the per-date-column results
(one `find_gaps_in_date_column` result per date column of the table, in
order; an empty list means the metadata reader found no date columns). -/
def find_gaps_in_table (rs : List GapColumnResult) : TableGapResult :=
  if rs.isEmpty then .noDateColumns ("No date columns found in table")
  else
    .ok
      { date_columns_found := rs.length
        column_analyses := rs
        total_gaps := (rs.map gapColumnTotalGaps).sum
        severity := gapTableSeverity rs }

end Gap

/-! ### Concrete fixture tables used by witnesses and counterexamples -/

/-- One required integer column, 20 rows, one of them NULL: 5 % missing. -/
def tMed : Table :=
  ⟨[⟨"a", "integer", "NO"⟩], [], List.replicate 19 [some 1] ++ [[none]]⟩

/-- One required integer column, 2 rows, one NULL: 50 % missing. -/
def tCrit : Table :=
  ⟨[⟨"a", "integer", "NO"⟩], [], [[none], [some 1]]⟩

/-- One required integer column, 1 row, no NULLs. -/
def tLow : Table :=
  ⟨[⟨"a", "integer", "NO"⟩], [], [[some 1]]⟩

/-- A nullable column next to a required one. -/
def tNullable : Table :=
  ⟨[⟨"a", "integer", "YES"⟩, ⟨"b", "integer", "NO"⟩], [], [[some 1, some 2]]⟩

/-- Primary key `id`, two rows sharing `id = 5` (the end-to-end
primary-key scenario of the spec). -/
def tPK : Table :=
  ⟨[⟨"id", "integer", "NO"⟩, ⟨"val", "integer", "NO"⟩], ["id"],
    [[some 5, some 1], [some 5, some 2]]⟩

/-- One column, five rows, two duplicate pairs: 4 duplicate rows of 5. -/
def tDup : Table :=
  ⟨[⟨"a", "integer", "NO"⟩], [], [[some 1], [some 1], [some 2], [some 2], [some 3]]⟩

/-- A required column on a table with no rows at all. -/
def tEmpty : Table :=
  ⟨[⟨"a", "integer", "NO"⟩], [], []⟩

/-- The daily date column of claim C1: non-null values on days
{1, 2, 3, 5, 6}. -/
def gapDays : List (Option Nat) :=
  [some 1, some 2, some 3, some 5, some 6]

/-! ### Generic facts about the threshold if-chains -/

section SevChain

variable {hi mid lo p : ℚ}

lemma chain_eq_critical_iff :
    (if p ≥ hi then Severity.critical
     else if p ≥ mid then Severity.high
     else if p ≥ lo then Severity.medium
     else Severity.low) = Severity.critical ↔ hi ≤ p := by
  split_ifs with h1 h2 h3
  · simpa using h1
  · simp [h1]
  · simp [h1]
  · simp [h1]

lemma chain_eq_high_iff :
    (if p ≥ hi then Severity.critical
     else if p ≥ mid then Severity.high
     else if p ≥ lo then Severity.medium
     else Severity.low) = Severity.high ↔ mid ≤ p ∧ p < hi := by
  split_ifs with h1 h2 h3
  · simp [not_lt.mpr h1]
  · simp [h2, not_le.mp h1]
  · simp [h2]
  · simp [h2]

lemma chain_eq_medium_iff (hmh : mid ≤ hi) :
    (if p ≥ hi then Severity.critical
     else if p ≥ mid then Severity.high
     else if p ≥ lo then Severity.medium
     else Severity.low) = Severity.medium ↔ lo ≤ p ∧ p < mid := by
  split_ifs with h1 h2 h3
  · simp [not_lt.mpr (hmh.trans h1)]
  · simp [not_lt.mpr h2]
  · simp [h3, not_le.mp h2]
  · simp [h3]

lemma chain_eq_low_iff (hlm : lo ≤ mid) (hmh : mid ≤ hi) :
    (if p ≥ hi then Severity.critical
     else if p ≥ mid then Severity.high
     else if p ≥ lo then Severity.medium
     else Severity.low) = Severity.low ↔ p < lo := by
  split_ifs with h1 h2 h3
  · simp [not_lt.mpr ((hlm.trans hmh).trans h1)]
  · simp [not_lt.mpr (hlm.trans h2)]
  · simp [not_lt.mpr h3]
  · simp [not_le.mp h3]

lemma chain_cases :
    (if p ≥ hi then Severity.critical
     else if p ≥ mid then Severity.high
     else if p ≥ lo then Severity.medium
     else Severity.low) = Severity.low ∨
    (if p ≥ hi then Severity.critical
     else if p ≥ mid then Severity.high
     else if p ≥ lo then Severity.medium
     else Severity.low) = Severity.medium ∨
    (if p ≥ hi then Severity.critical
     else if p ≥ mid then Severity.high
     else if p ≥ lo then Severity.medium
     else Severity.low) = Severity.high ∨
    (if p ≥ hi then Severity.critical
     else if p ≥ mid then Severity.high
     else if p ≥ lo then Severity.medium
     else Severity.low) = Severity.critical := by
  split_ifs <;> simp

end SevChain

/-! ### C2 — missing-value severity thresholds and percentage -/

/-- C2: the missing-value severity classifier returns `critical` iff
p ≥ 50, `high` iff 20 ≤ p < 50, `medium` iff 5 ≤ p < 20 and `low` iff
p < 5 (boundary-inclusive: exactly 5 yields `medium`); the percentage it
is applied to is `null_count / total_rows * 100`, or 0 when
`total_rows = 0`, and every reported column detail is classified from
exactly that percentage of its own null count. -/
theorem C2_missing_severity_thresholds :
    (∀ p : ℚ,
      (Missing.calculate_severity p = Severity.critical ↔ 50 ≤ p) ∧
      (Missing.calculate_severity p = Severity.high ↔ 20 ≤ p ∧ p < 50) ∧
      (Missing.calculate_severity p = Severity.medium ↔ 5 ≤ p ∧ p < 20) ∧
      (Missing.calculate_severity p = Severity.low ↔ p < 5)) ∧
    Missing.calculate_severity 5 = Severity.medium ∧
    (∀ n tot : Nat, Missing.missingPercentage n tot =
      if tot = 0 then 0 else (n : ℚ) / (tot : ℚ) * 100) ∧
    (∀ t : Table, ∀ d ∈ (Missing.check_table_missing_values t).missing_details,
      0 < d.null_count ∧
      d.severity = Missing.calculate_severity
        (Missing.missingPercentage d.null_count t.rows.length)) := by
  refine ⟨fun p => ?_, ?_, fun n tot => ?_, fun t d hd => ?_⟩
  · unfold Missing.calculate_severity
    exact ⟨chain_eq_critical_iff, chain_eq_high_iff,
      chain_eq_medium_iff (by norm_num),
      chain_eq_low_iff (by norm_num) (by norm_num)⟩
  · unfold Missing.calculate_severity
    norm_num
  · unfold Missing.missingPercentage
    rcases Nat.eq_zero_or_pos tot with h | h
    · simp [h]
    · simp [h, Nat.pos_iff_ne_zero.mp h]
  · simp only [Missing.check_table_missing_values, List.mem_filterMap] at hd
    obtain ⟨⟨j, c⟩, _, he⟩ := hd
    by_cases h1 : c.is_nullable == "YES"
    · simp [Missing.analyzeColumn, h1] at he
    · by_cases h2 : 0 < Missing.nullCount t j
      · simp only [Missing.analyzeColumn, h1, if_false, Bool.false_eq_true, h2, if_true,
          Option.some.injEq] at he
        subst he
        exact ⟨h2, rfl⟩
      · simp [Missing.analyzeColumn, h1, h2] at he

/-- The single missing-value detail entry of `tCrit`. -/
def dCrit : Missing.ColumnDetail :=
  ⟨"a", "integer", 1, pyRound2 (Missing.missingPercentage 1 2), false,
    Missing.calculate_severity (Missing.missingPercentage 1 2)⟩

/-- C2 witness: the boundary case 5 % → `medium`, and the concrete detail
of `tCrit` classified from its own null count and row count. -/
lemma dCrit_mem : dCrit ∈ (Missing.check_table_missing_values tCrit).missing_details := by
  have h : (Missing.check_table_missing_values tCrit).missing_details = [dCrit] := rfl
  rw [h]
  exact List.mem_singleton_self _

theorem C2_missing_severity_thresholds_witness :
    Missing.calculate_severity 5 = Severity.medium ∧
    0 < dCrit.null_count ∧
    dCrit.severity =
      Missing.calculate_severity
        (Missing.missingPercentage dCrit.null_count tCrit.rows.length) :=
  ⟨C2_missing_severity_thresholds.2.1,
    (C2_missing_severity_thresholds.2.2.2 tCrit dCrit dCrit_mem).1,
    (C2_missing_severity_thresholds.2.2.2 tCrit dCrit dCrit_mem).2⟩

/-! ### C1 — daily date-gap detection (code bug) -/

/-- C1: the claim requires that days {1,2,3,5,6} produce exactly one gap
(day 4 → day 5, one gap-day).  The code cannot produce it: its
`generate_series` call uses `DATE(date_column)` for both bounds (the
`min_date`/`max_date` parameters of `_find_gaps_for_interval` are never
used), so the expected-bucket set always equals the observed-bucket set
and `dailyGaps` is empty for every input; on the input of the claim the
checker reports `total_gaps = 0`.  The spec-modelled bucket set from the
observed minimum to maximum does report the single gap 4 → 5. -/
theorem C1_daily_gap_detection :
    (∀ vals : List (Option Nat), Gap.dailyGaps vals = []) ∧
    Gap.find_gaps_in_date_column gapDays =
      Gap.GapColumnResult.ok
        { expected_interval := "daily", min_date := 1, max_date := 6, total_days := 5,
          total_records := 5, total_gaps := 0, total_gap_days := 0, gaps := [],
          severity := Severity.low } ∧
    Gap.specDailyGaps gapDays = [⟨4, 5, 1⟩] := by
  refine ⟨fun vals => ?_, by decide, by decide⟩
  unfold Gap.dailyGaps
  have h : ∀ l : List Nat, l.filter (fun d => decide (d ∉ l)) = [] :=
    fun l => List.filter_eq_nil_iff.mpr (fun a ha => by simp [ha])
  simp [h]

/-! ### Counting lemmas for GROUP BY / HAVING COUNT(*) > 1 -/

lemma filterMap_ifsome {α β : Type} (l : List α) (p : α → Prop) [DecidablePred p]
    (f : α → β) :
    l.filterMap (fun a => if p a then some (f a) else none) =
      (l.filter (fun a => decide (p a))).map f := by
  induction l with
  | nil => rfl
  | cons a l ih => by_cases h : p a <;> simp [List.filter_cons, h, ih]

/-- Rewriting `duplicateGroups` as a filter of the deduplicated key list. -/
lemma duplicateGroups_eq (t : Table) (names : List String) :
    Dup.duplicateGroups t names =
      ((t.rows.map (projKey t names)).dedup.filter
        (fun k => decide (1 < (t.rows.map (projKey t names)).count k))).map
        (fun k => (k, (t.rows.map (projKey t names)).count k)) := by
  unfold Dup.duplicateGroups
  exact filterMap_ifsome _ _ _

/-- Nonemptiness of the duplicate-group list is the existence of a key
shared by at least two rows. -/
lemma duplicateGroups_ne_nil_iff (t : Table) (names : List String) :
    Dup.duplicateGroups t names ≠ [] ↔
      ∃ k, 1 < (t.rows.map (projKey t names)).count k := by
  rw [duplicateGroups_eq]
  constructor
  · intro h
    have hf : ((t.rows.map (projKey t names)).dedup.filter
        (fun k => decide (1 < (t.rows.map (projKey t names)).count k))) ≠ [] := by
      intro hf
      exact h (by simp [hf])
    obtain ⟨k, hk⟩ := List.exists_mem_of_ne_nil _ hf
    obtain ⟨-, hp⟩ := List.mem_filter.mp hk
    exact ⟨k, by simpa using hp⟩
  · rintro ⟨k, hk⟩
    have hmem : k ∈ (t.rows.map (projKey t names)).dedup :=
      List.mem_dedup.mpr (List.count_pos_iff.mp (Nat.lt_of_lt_of_le Nat.zero_lt_one hk.le))
    have hkf : k ∈ (t.rows.map (projKey t names)).dedup.filter
        (fun k => decide (1 < (t.rows.map (projKey t names)).count k)) :=
      List.mem_filter.mpr ⟨hmem, by simpa using hk⟩
    intro hnil
    rw [List.map_eq_nil_iff] at hnil
    simp [hnil] at hkf

/-! ### C4 — primary-key duplicate check -/

/-- C4: with no declared primary key the check reports
`has_primary_key = false`, severity `info`, `duplicate_count = 0`;
otherwise severity is `critical` exactly when some primary-key value is
shared by more than one row (else `low`, never a percentage-based
value), and `duplicate_count` is the number of distinct such values. -/
theorem C4_primary_key_duplicates (t : Table) :
    (t.primary_keys = [] →
      Dup.check_primary_key_duplicates t =
        { primary_keys := [], has_primary_key := false, duplicate_count := 0,
          duplicate_details := [], severity := Severity.info }) ∧
    (t.primary_keys ≠ [] →
      (Dup.check_primary_key_duplicates t).has_primary_key = true ∧
      (Dup.check_primary_key_duplicates t).duplicate_count =
        (t.rows.map (projKey t t.primary_keys)).dedup.countP
          (fun k => decide (1 < (t.rows.map (projKey t t.primary_keys)).count k)) ∧
      ((Dup.check_primary_key_duplicates t).severity = Severity.critical ↔
        ∃ k, 1 < (t.rows.map (projKey t t.primary_keys)).count k) ∧
      ((Dup.check_primary_key_duplicates t).severity = Severity.critical ∨
        (Dup.check_primary_key_duplicates t).severity = Severity.low)) := by
  constructor
  · intro h
    simp [Dup.check_primary_key_duplicates, h]
  · intro h
    have hne : t.primary_keys.isEmpty = false := by
      simpa [List.isEmpty_iff] using h
    refine ⟨?_, ?_, ?_, ?_⟩
    · simp [Dup.check_primary_key_duplicates, hne]
    · simp only [Dup.check_primary_key_duplicates, hne, Bool.false_eq_true, if_false]
      rw [duplicateGroups_eq, List.length_map, List.countP_eq_length_filter]
    · simp only [Dup.check_primary_key_duplicates, hne, Bool.false_eq_true, if_false]
      rw [← duplicateGroups_ne_nil_iff t t.primary_keys]
      by_cases hg : (Dup.duplicateGroups t t.primary_keys).isEmpty
      · simp [hg, List.isEmpty_iff.mp hg]
      · have : Dup.duplicateGroups t t.primary_keys ≠ [] := by
          simpa [List.isEmpty_iff] using hg
        simp [hg, this]
    · simp only [Dup.check_primary_key_duplicates, hne, Bool.false_eq_true, if_false]
      by_cases hg : (Dup.duplicateGroups t t.primary_keys).isEmpty <;> simp [hg]

/-- C4 witness: the end-to-end scenario of the spec — primary key `id`, two
rows sharing `id = 5` — yields `duplicate_count = 1` and severity
`critical`. -/
theorem C4_primary_key_duplicates_witness :
    (Dup.check_primary_key_duplicates tPK).duplicate_count = 1 ∧
    (Dup.check_primary_key_duplicates tPK).severity = Severity.critical := by
  have h := (C4_primary_key_duplicates tPK).2 (by decide)
  refine ⟨?_, h.2.2.1.mpr ⟨[some 5], by decide⟩⟩
  rw [h.2.1]
  decide

/-! ### C10 — date-gap table-level severity -/

/-- C10: the date-gap table severity is upgraded only by `critical`,
`high` or `medium` among the per-column severities and otherwise stays at
the initial `low`; in particular a table whose every column analysis
returned severity `error` reports table severity `low`, not `error`. -/
theorem C10_gap_table_severity (rs : List Gap.GapColumnResult) :
    (Gap.gapTableSeverity rs = Severity.critical ∨
      Gap.gapTableSeverity rs = Severity.high ∨
      Gap.gapTableSeverity rs = Severity.medium ∨
      Gap.gapTableSeverity rs = Severity.low) ∧
    (Gap.gapTableSeverity rs = Severity.critical ↔
      Severity.critical ∈ rs.map Gap.gapColumnSeverity) ∧
    (Gap.gapTableSeverity rs = Severity.high ↔
      Severity.high ∈ rs.map Gap.gapColumnSeverity ∧
        Severity.critical ∉ rs.map Gap.gapColumnSeverity) ∧
    (Gap.gapTableSeverity rs = Severity.medium ↔
      Severity.medium ∈ rs.map Gap.gapColumnSeverity ∧
        Severity.critical ∉ rs.map Gap.gapColumnSeverity ∧
        Severity.high ∉ rs.map Gap.gapColumnSeverity) ∧
    ((∀ r ∈ rs, Gap.gapColumnSeverity r = Severity.error) →
      Gap.gapTableSeverity rs = Severity.low) ∧
    (rs ≠ [] →
      Gap.find_gaps_in_table rs =
        Gap.TableGapResult.ok
          ⟨rs.length, rs, (rs.map Gap.gapColumnTotalGaps).sum,
            Gap.gapTableSeverity rs⟩) := by
  refine ⟨?_, ?_, ?_, ?_, ?_, ?_⟩
  · simp only [Gap.gapTableSeverity]
    split_ifs <;> simp
  · simp only [Gap.gapTableSeverity]
    split_ifs with h1 h2 h3 <;> simp [h1]
  · simp only [Gap.gapTableSeverity]
    split_ifs with h1 h2 h3
    · simp [h1]
    · simp [h1, h2]
    · simp [h2]
    · simp [h2]
  · simp only [Gap.gapTableSeverity]
    split_ifs with h1 h2 h3
    · simp [h1]
    · simp [h2]
    · simp [h1, h2, h3]
    · simp [h3]
  · intro hall
    have hnot : ∀ s : Severity, s ≠ Severity.error →
        s ∉ rs.map Gap.gapColumnSeverity := by
      intro s hs hmem
      obtain ⟨r, hr, he⟩ := List.mem_map.mp hmem
      rw [hall r hr] at he
      exact hs he.symm
    simp only [Gap.gapTableSeverity]
    simp [hnot Severity.critical (by decide), hnot Severity.high (by decide),
      hnot Severity.medium (by decide)]
  · intro hne
    have h : rs.isEmpty = false := by simpa [List.isEmpty_iff] using hne
    simp [Gap.find_gaps_in_table, h]

/-- C10 witness: two error-severity column analyses give table severity
`low`. -/
theorem C10_gap_table_severity_witness :
    Gap.gapTableSeverity
      [Gap.GapColumnResult.noDates ("No valid dates found in column"),
        Gap.GapColumnResult.noDates ("No valid dates found in column")] =
      Severity.low :=
  (C10_gap_table_severity _).2.2.2.2.1 (by decide)

/-! ### C6 — zero-rows / zero-applicable-data behavior (corrected) -/

/-- C6 counterexample: contrary to the claim, a date column whose values
are all NULL *is* an error-severity result ("No valid dates found in
column", severity `error`), although no query failed. -/
theorem C6_no_valid_dates_counterexample :
    Gap.find_gaps_in_date_column [none] =
      Gap.GapColumnResult.noDates ("No valid dates found in column") ∧
    Gap.gapColumnSeverity (Gap.find_gaps_in_date_column [none]) =
      Severity.error := ⟨rfl, rfl⟩

lemma pyRound2_zero : pyRound2 0 = 0 := by
  norm_num [pyRound2, ratFloor]

lemma dup_calculate_severity_zero : Dup.calculate_severity 0 = Severity.low := by
  norm_num [Dup.calculate_severity]

/-- C6 amended: a table with zero rows yields zero issues at severity
`low` from the missing-value and duplicate checks; a missing primary key
or business-key configuration yields `info`; a table with no date
columns yields the neutral no-date-columns message; but a date column
with no valid (non-null) dates is reported with severity `error` and the
message "No valid dates found in column". -/
theorem C6_zero_data :
    (∀ t : Table, t.rows = [] →
      (Missing.check_table_missing_values t).severity = Severity.low ∧
      (Missing.check_table_missing_values t).missing_details = [] ∧
      (Missing.check_table_missing_values t).columns_with_missing = 0) ∧
    (∀ (t : Table) (cols : Option (List String)), t.rows = [] →
      (Dup.check_table_duplicates t cols).total_duplicate_rows = 0 ∧
      (Dup.check_table_duplicates t cols).duplicate_percentage = 0 ∧
      (Dup.check_table_duplicates t cols).severity = Severity.low) ∧
    (∀ t : Table, t.primary_keys = [] →
      (Dup.check_primary_key_duplicates t).severity = Severity.info ∧
      (Dup.check_primary_key_duplicates t).duplicate_count = 0) ∧
    (∀ t : Table,
      Dup.check_business_key_duplicates t [] = Dup.BKResult.noKeys ∧
      Dup.bkSeverity (Dup.check_business_key_duplicates t []) = Severity.info) ∧
    Gap.find_gaps_in_table [] =
      Gap.TableGapResult.noDateColumns ("No date columns found in table") ∧
    (∀ vals : List (Option Nat), (∀ v ∈ vals, v = none) →
      Gap.find_gaps_in_date_column vals =
        Gap.GapColumnResult.noDates ("No valid dates found in column")) := by
  refine ⟨fun t h => ?_, fun t cols h => ?_, fun t h => ?_, fun t => ?_, rfl,
    fun vals h => ?_⟩
  · have hd : t.columns.enum.filterMap (fun jc => Missing.analyzeColumn t jc.1 jc.2)
        = [] := by
      refine List.filterMap_eq_nil_iff.mpr (fun jc _ => ?_)
      simp [Missing.analyzeColumn, Missing.nullCount, h]
    simp [Missing.check_table_missing_values, hd, Missing.tableSeverity]
  · have hg : ∀ names, Dup.duplicateGroups t names = [] := by
      intro names
      simp [Dup.duplicateGroups, h]
    simp [Dup.check_table_duplicates, hg, Dup.duplicatePercentage, pyRound2_zero,
      dup_calculate_severity_zero]
  · simp [Dup.check_primary_key_duplicates, h]
  · exact ⟨rfl, rfl⟩
  · have hnn : vals.filterMap id = [] :=
      List.filterMap_eq_nil_iff.mpr h
    simp [Gap.find_gaps_in_date_column, hnn]

/-- C6 witness: the zero-data results on concrete inputs. -/
theorem C6_zero_data_witness :
    (Missing.check_table_missing_values tEmpty).severity = Severity.low ∧
    (Dup.check_table_duplicates tEmpty none).severity = Severity.low ∧
    (Dup.check_primary_key_duplicates tEmpty).severity = Severity.info ∧
    Gap.find_gaps_in_date_column [none, none] =
      Gap.GapColumnResult.noDates ("No valid dates found in column") :=
  ⟨(C6_zero_data.1 tEmpty rfl).1, (C6_zero_data.2.1 tEmpty none rfl).2.2,
    (C6_zero_data.2.2.1 tEmpty rfl).1,
    C6_zero_data.2.2.2.2.2 [none, none] (by decide)⟩

/-! ### C8 — columns_analyzed and nullable-column skipping (corrected) -/

/-- C8 counterexample: `columns_analyzed` is `len(columns)` — it counts
the nullable column of `tNullable` too (2), not just the required
(non-nullable) columns (1). -/
theorem C8_columns_analyzed_counterexample :
    (Missing.check_table_missing_values tNullable).columns_analyzed = 2 ∧
    (tNullable.columns.filter (fun c => c.is_nullable != "YES")).length = 1 ∧
    (Missing.check_table_missing_values tNullable).columns_analyzed ≠
      (tNullable.columns.filter (fun c => c.is_nullable != "YES")).length :=
  ⟨rfl, rfl, by decide⟩

/-- C8 amended: `columns_analyzed` equals the total number of columns of
the table, nullable ones included; nullable-by-design columns are still
skipped by the per-column analysis, so every missing-detail entry stems
from a non-nullable column with a positive NULL count, and
`columns_with_missing` is the number of such entries. -/
theorem C8_columns_analyzed (t : Table) :
    (Missing.check_table_missing_values t).columns_analyzed = t.columns.length ∧
    (Missing.check_table_missing_values t).columns_with_missing =
      (Missing.check_table_missing_values t).missing_details.length ∧
    (∀ d ∈ (Missing.check_table_missing_values t).missing_details,
      ∃ c ∈ t.columns, c.column_name = d.column_name ∧
        c.is_nullable ≠ "YES" ∧ 0 < d.null_count) := by
  refine ⟨rfl, rfl, fun d hd => ?_⟩
  simp only [Missing.check_table_missing_values, List.mem_filterMap] at hd
  obtain ⟨⟨j, c⟩, hjc, he⟩ := hd
  have hc : c ∈ t.columns := by
    have hm := List.mem_map_of_mem Prod.snd hjc
    rwa [List.enum_map_snd] at hm
  by_cases h1 : c.is_nullable == "YES"
  · simp [Missing.analyzeColumn, h1] at he
  · by_cases h2 : 0 < Missing.nullCount t j
    · simp only [Missing.analyzeColumn, h1, Bool.false_eq_true, if_false, h2,
        if_true, Option.some.injEq] at he
      subst he
      exact ⟨c, hc, rfl, fun hy => h1 (by simp [hy]), h2⟩
    · simp [Missing.analyzeColumn, h1, h2] at he

/-- C8 witness: the nullable column of `tNullable` counts toward
`columns_analyzed`, and the concrete detail of `tCrit` comes from a
required column with a positive NULL count. -/
theorem C8_columns_analyzed_witness :
    (Missing.check_table_missing_values tNullable).columns_analyzed =
      tNullable.columns.length ∧
    ∃ c ∈ tCrit.columns, c.column_name = dCrit.column_name ∧
      c.is_nullable ≠ "YES" ∧ 0 < dCrit.null_count :=
  ⟨(C8_columns_analyzed tNullable).1,
    (C8_columns_analyzed tCrit).2.2 dCrit dCrit_mem⟩

/-! ### Fold lemmas for the missing-values schema loop -/

lemma schemaStep_fields (acc : Missing.SchemaMissing) (tr : Missing.TableResult) :
    (Missing.schemaStep acc tr).total_tables = acc.total_tables ∧
    (Missing.schemaStep acc tr).tables_analyzed = acc.tables_analyzed + 1 ∧
    (Missing.schemaStep acc tr).table_results = acc.table_results ++ [tr] ∧
    (Missing.schemaStep acc tr).severity = acc.severity ∧
    (Missing.schemaStep acc tr).tables_with_missing =
      acc.tables_with_missing + (if Missing.tallyMissing tr then 1 else 0) ∧
    (Missing.schemaStep acc tr).critical_issues =
      acc.critical_issues + (if Missing.tallySev .critical tr then 1 else 0) ∧
    (Missing.schemaStep acc tr).high_issues =
      acc.high_issues + (if Missing.tallySev .high tr then 1 else 0) ∧
    (Missing.schemaStep acc tr).medium_issues =
      acc.medium_issues + (if Missing.tallySev .medium tr then 1 else 0) ∧
    (Missing.schemaStep acc tr).low_issues =
      acc.low_issues + (if Missing.tallySev .low tr then 1 else 0) := by
  cases tr with
  | err m =>
    simp [Missing.schemaStep, Missing.resultSeverity, Missing.tallyMissing,
      Missing.tallySev]
  | ok r =>
    rcases hs : r.severity <;> by_cases hm : 0 < r.columns_with_missing <;>
      simp [Missing.schemaStep, Missing.resultSeverity, Missing.resultColumnsWithMissing,
        Missing.tallyMissing, Missing.tallySev, hs, hm]

lemma foldl_schemaStep (os : List Missing.TableResult) :
    ∀ acc : Missing.SchemaMissing,
      (os.foldl Missing.schemaStep acc).total_tables = acc.total_tables ∧
      (os.foldl Missing.schemaStep acc).tables_analyzed =
        acc.tables_analyzed + os.length ∧
      (os.foldl Missing.schemaStep acc).table_results = acc.table_results ++ os ∧
      (os.foldl Missing.schemaStep acc).severity = acc.severity ∧
      (os.foldl Missing.schemaStep acc).tables_with_missing =
        acc.tables_with_missing + os.countP Missing.tallyMissing ∧
      (os.foldl Missing.schemaStep acc).critical_issues =
        acc.critical_issues + os.countP (Missing.tallySev .critical) ∧
      (os.foldl Missing.schemaStep acc).high_issues =
        acc.high_issues + os.countP (Missing.tallySev .high) ∧
      (os.foldl Missing.schemaStep acc).medium_issues =
        acc.medium_issues + os.countP (Missing.tallySev .medium) ∧
      (os.foldl Missing.schemaStep acc).low_issues =
        acc.low_issues + os.countP (Missing.tallySev .low) := by
  induction os with
  | nil => intro acc; simp
  | cons tr os ih =>
    intro acc
    obtain ⟨h1, h2, h3, h4, h5, h6, h7, h8, h9⟩ := ih (Missing.schemaStep acc tr)
    obtain ⟨g1, g2, g3, g4, g5, g6, g7, g8, g9⟩ := schemaStep_fields acc tr
    refine ⟨?_, ?_, ?_, ?_, ?_, ?_, ?_, ?_, ?_⟩
    · rw [List.foldl_cons, h1, g1]
    · rw [List.foldl_cons, h2, g2, List.length_cons]; omega
    · rw [List.foldl_cons, h3, g3, List.append_assoc, List.singleton_append]
    · rw [List.foldl_cons, h4, g4]
    · rw [List.foldl_cons, h5, g5, List.countP_cons]; omega
    · rw [List.foldl_cons, h6, g6, List.countP_cons]; omega
    · rw [List.foldl_cons, h7, g7, List.countP_cons]; omega
    · rw [List.foldl_cons, h8, g8, List.countP_cons]; omega
    · rw [List.foldl_cons, h9, g9, List.countP_cons]; omega

/-- The schema result of the success path never carries a severity key. -/
lemma schema_severity_none (os : List Missing.TableResult) :
    (Missing.check_schema_missing_values os).severity = none := by
  have h := (foldl_schemaStep os (Missing.schemaInit os.length)).2.2.2.1
  simpa [Missing.schemaInit, Missing.check_schema_missing_values] using h

/-! ### C7 — per-table errors are isolated in the schema loop -/

/-- C7: every per-table outcome (error dicts included) is recorded in
`table_results`; `tables_analyzed` and `total_tables` count all tables,
so an error never aborts the loop; `tables_with_missing` and the four
per-severity tallies count only non-error tables, and an error outcome
carries severity `error` and is counted by none of the tallies. -/
theorem C7_schema_error_isolation (os : List Missing.TableResult) :
    (Missing.check_schema_missing_values os).table_results = os ∧
    (Missing.check_schema_missing_values os).tables_analyzed = os.length ∧
    (Missing.check_schema_missing_values os).total_tables = os.length ∧
    (Missing.check_schema_missing_values os).tables_with_missing =
      os.countP Missing.tallyMissing ∧
    (Missing.check_schema_missing_values os).critical_issues =
      os.countP (Missing.tallySev .critical) ∧
    (Missing.check_schema_missing_values os).high_issues =
      os.countP (Missing.tallySev .high) ∧
    (Missing.check_schema_missing_values os).medium_issues =
      os.countP (Missing.tallySev .medium) ∧
    (Missing.check_schema_missing_values os).low_issues =
      os.countP (Missing.tallySev .low) ∧
    (∀ msg : String,
      Missing.resultSeverity (Missing.TableResult.err msg) = Severity.error ∧
      Missing.tallyMissing (Missing.TableResult.err msg) = false ∧
      (∀ s : Severity, Missing.tallySev s (Missing.TableResult.err msg) = false)) := by
  obtain ⟨h1, h2, h3, h4, h5, h6, h7, h8, h9⟩ :=
    foldl_schemaStep os (Missing.schemaInit os.length)
  refine ⟨?_, ?_, ?_, ?_, ?_, ?_, ?_, ?_, fun msg => ⟨rfl, rfl, fun s => ?_⟩⟩
  · simpa [Missing.schemaInit, Missing.check_schema_missing_values] using h3
  · simpa [Missing.schemaInit, Missing.check_schema_missing_values] using h2
  · simpa [Missing.schemaInit, Missing.check_schema_missing_values] using h1
  · simpa [Missing.schemaInit, Missing.check_schema_missing_values] using h5
  · simpa [Missing.schemaInit, Missing.check_schema_missing_values] using h6
  · simpa [Missing.schemaInit, Missing.check_schema_missing_values] using h7
  · simpa [Missing.schemaInit, Missing.check_schema_missing_values] using h8
  · simpa [Missing.schemaInit, Missing.check_schema_missing_values] using h9
  · simp [Missing.tallySev, Missing.resultSeverity]

/-! ### C5 — roll-up severity (corrected: no schema-level severity) -/

lemma calculate_severity_cases (p : ℚ) :
    Missing.calculate_severity p = Severity.low ∨
    Missing.calculate_severity p = Severity.medium ∨
    Missing.calculate_severity p = Severity.high ∨
    Missing.calculate_severity p = Severity.critical := by
  unfold Missing.calculate_severity
  exact chain_cases

lemma detail_sev_cases {t : Table} {d : Missing.ColumnDetail}
    (hd : d ∈ (Missing.check_table_missing_values t).missing_details) :
    d.severity = Severity.low ∨ d.severity = Severity.medium ∨
    d.severity = Severity.high ∨ d.severity = Severity.critical := by
  simp only [Missing.check_table_missing_values, List.mem_filterMap] at hd
  obtain ⟨⟨j, c⟩, hjc, he⟩ := hd
  by_cases h1 : c.is_nullable == "YES"
  · simp [Missing.analyzeColumn, h1] at he
  · by_cases h2 : 0 < Missing.nullCount t j
    · simp only [Missing.analyzeColumn, h1, Bool.false_eq_true, if_false, h2,
        if_true, Option.some.injEq] at he
      subst he
      exact calculate_severity_cases _
    · simp [Missing.analyzeColumn, h1, h2] at he

/-- C5 counterexample: three tables whose checks come out `low`,
`medium` and `critical`; the schema-level result of the code has *no*
rollup severity (its severity key is absent), rather than the claimed
`critical`. -/
theorem C5_schema_rollup_counterexample :
    (Missing.check_table_missing_values tLow).severity = Severity.low ∧
    (Missing.check_table_missing_values tMed).severity = Severity.medium ∧
    (Missing.check_table_missing_values tCrit).severity = Severity.critical ∧
    (Missing.check_schema_missing_values
        [Missing.TableResult.ok (Missing.check_table_missing_values tLow),
          Missing.TableResult.ok (Missing.check_table_missing_values tMed),
          Missing.TableResult.ok (Missing.check_table_missing_values tCrit)]).severity
      ≠ some Severity.critical ∧
    (Missing.check_schema_missing_values
        [Missing.TableResult.ok (Missing.check_table_missing_values tLow),
          Missing.TableResult.ok (Missing.check_table_missing_values tMed),
          Missing.TableResult.ok (Missing.check_table_missing_values tCrit)]).severity
      = none := by
  refine ⟨rfl, ?_, ?_, ?_, schema_severity_none _⟩
  · have hdm : (Missing.check_table_missing_values tMed).severity =
        Missing.tableSeverity [⟨"a", "integer", 1,
          pyRound2 (Missing.missingPercentage 1 20), false,
          Missing.calculate_severity (Missing.missingPercentage 1 20)⟩] := rfl
    have hp : Missing.missingPercentage 1 20 = 5 := by
      norm_num [Missing.missingPercentage]
    have hc : Missing.calculate_severity 5 = Severity.medium := by
      norm_num [Missing.calculate_severity]
    rw [hdm, hp, hc]
    decide
  · have hdc : (Missing.check_table_missing_values tCrit).severity =
        Missing.tableSeverity [⟨"a", "integer", 1,
          pyRound2 (Missing.missingPercentage 1 2), false,
          Missing.calculate_severity (Missing.missingPercentage 1 2)⟩] := rfl
    have hp : Missing.missingPercentage 1 2 = 50 := by
      norm_num [Missing.missingPercentage]
    have hc : Missing.calculate_severity 50 = Severity.critical := by
      norm_num [Missing.calculate_severity]
    rw [hdc, hp, hc]
    decide
  · rw [schema_severity_none]
    simp

/-- C5 amended: the missing-value severity of a table is a maximum of its
per-column severities (`low` when no column is flagged, attained by some
flagged column otherwise); the schema-level result carries *no* rollup
severity field at all — the code maintains per-severity issue counts
instead. -/
theorem C5_rollup_severity (t : Table) :
    ((Missing.check_table_missing_values t).missing_details = [] →
      (Missing.check_table_missing_values t).severity = Severity.low) ∧
    (∀ d ∈ (Missing.check_table_missing_values t).missing_details,
      sevRank d.severity ≤ sevRank (Missing.check_table_missing_values t).severity) ∧
    ((Missing.check_table_missing_values t).missing_details ≠ [] →
      ∃ d ∈ (Missing.check_table_missing_values t).missing_details,
        d.severity = (Missing.check_table_missing_values t).severity) ∧
    (∀ os : List Missing.TableResult,
      (Missing.check_schema_missing_values os).severity = none) := by
  have hsev : (Missing.check_table_missing_values t).severity =
      Missing.tableSeverity (Missing.check_table_missing_values t).missing_details :=
    rfl
  refine ⟨?_, ?_, ?_, schema_severity_none⟩
  · intro h
    rw [hsev, h]
    rfl
  · intro d hd
    have hds : d.severity ∈
        (Missing.check_table_missing_values t).missing_details.map
          Missing.ColumnDetail.severity :=
      List.mem_map_of_mem _ hd
    have he : ¬ ((Missing.check_table_missing_values t).missing_details.isEmpty = true) := by
      simp only [List.isEmpty_iff]
      intro hnil
      rw [hnil] at hd
      cases hd
    rw [hsev]
    simp only [Missing.tableSeverity, if_neg he]
    rcases detail_sev_cases hd with h | h | h | h <;> rw [h] at hds <;> rw [h] <;>
      split_ifs <;> simp_all [sevRank]
  · intro hne
    have he : ¬ ((Missing.check_table_missing_values t).missing_details.isEmpty = true) := by
      simpa [List.isEmpty_iff] using hne
    rw [hsev]
    simp only [Missing.tableSeverity, if_neg he]
    split_ifs with hc hh hm
    · obtain ⟨d, hd, hds⟩ := List.mem_map.mp hc
      exact ⟨d, hd, hds⟩
    · obtain ⟨d, hd, hds⟩ := List.mem_map.mp hh
      exact ⟨d, hd, hds⟩
    · obtain ⟨d, hd, hds⟩ := List.mem_map.mp hm
      exact ⟨d, hd, hds⟩
    · obtain ⟨d, hd⟩ := List.exists_mem_of_ne_nil _ hne
      rcases detail_sev_cases hd with h | h | h | h
      · exact ⟨d, hd, h⟩
      · exact absurd (h ▸ List.mem_map_of_mem Missing.ColumnDetail.severity hd) hm
      · exact absurd (h ▸ List.mem_map_of_mem Missing.ColumnDetail.severity hd) hh
      · exact absurd (h ▸ List.mem_map_of_mem Missing.ColumnDetail.severity hd) hc

/-- C5 witness: the severity of `tCrit` is attained by one of its
details, and a concrete schema result has no severity key. -/
theorem C5_rollup_severity_witness :
    (∃ d ∈ (Missing.check_table_missing_values tCrit).missing_details,
      d.severity = (Missing.check_table_missing_values tCrit).severity) ∧
    (Missing.check_schema_missing_values []).severity = none := by
  refine ⟨(C5_rollup_severity tCrit).2.2.1 ?_, (C5_rollup_severity tCrit).2.2.2 []⟩
  rw [show (Missing.check_table_missing_values tCrit).missing_details = [dCrit] from rfl]
  simp

/-! ### C3 — general and business-key duplicate checks -/

/-- Total duplicate rows (the sum of group sizes over groups with
count > 1) counts every row whose key occurs more than once — all rows
of each duplicate group, not just the rows beyond the first. -/
lemma count_beq_bridge (x : List (Option Nat)) (l : List (List (Option Nat))) :
    @List.count (List (Option Nat)) instBEqOfDecidableEq x l =
      @List.count (List (Option Nat)) List.instBEq x l := by
  unfold List.count
  refine List.countP_congr (fun b _ => ?_)
  by_cases h : b = x <;> simp [h]

lemma tdr_countP (t : Table) (names : List String) :
    ((Dup.duplicateGroups t names).map Prod.snd).sum =
      t.rows.countP (fun row =>
        decide (1 < (t.rows.map (projKey t names)).count (projKey t names row))) := by
  rw [duplicateGroups_eq, List.map_map]
  have h := List.sum_map_count_dedup_filter_eq_countP
    (fun k => decide (1 < (t.rows.map (projKey t names)).count k))
    (t.rows.map (projKey t names))
  rw [List.countP_map] at h
  simpa [Function.comp_def, count_beq_bridge] using h

/-- C3: the field `total_duplicate_rows` of the general-duplicate check counts all
rows belonging to a group (by all columns, or a caller-supplied subset)
of size > 1; severity is classified from
`total_duplicate_rows / total_rows * 100` (0 when the table is empty)
with thresholds 30/15/5, boundary-inclusive; and the business-key check
classifies with the very same function over the same kind of
percentage. -/
theorem C3_general_duplicates (t : Table) (cols : Option (List String)) :
    (Dup.check_table_duplicates t cols).total_duplicate_rows =
      t.rows.countP (fun row =>
        decide (1 <
          (t.rows.map (projKey t (cols.getD (t.columns.map Column.column_name)))).count
            (projKey t (cols.getD (t.columns.map Column.column_name)) row))) ∧
    (Dup.check_table_duplicates t cols).severity =
      Dup.calculate_severity
        (Dup.duplicatePercentage
          (Dup.check_table_duplicates t cols).total_duplicate_rows t.rows.length) ∧
    (∀ n tot : Nat, Dup.duplicatePercentage n tot =
      if tot = 0 then 0 else (n : ℚ) / (tot : ℚ) * 100) ∧
    (∀ p : ℚ,
      (Dup.calculate_severity p = Severity.critical ↔ 30 ≤ p) ∧
      (Dup.calculate_severity p = Severity.high ↔ 15 ≤ p ∧ p < 30) ∧
      (Dup.calculate_severity p = Severity.medium ↔ 5 ≤ p ∧ p < 15) ∧
      (Dup.calculate_severity p = Severity.low ↔ p < 5)) ∧
    (∀ (t2 : Table) (keys : List String), keys ≠ [] →
      ∃ a, Dup.check_business_key_duplicates t2 keys = Dup.BKResult.ok a ∧
        a.severity = Dup.calculate_severity
          (Dup.duplicatePercentage a.total_duplicate_rows t2.rows.length) ∧
        a.total_duplicate_rows =
          t2.rows.countP (fun row =>
            decide (1 < (t2.rows.map (projKey t2 keys)).count (projKey t2 keys row)))) := by
  refine ⟨tdr_countP t _, rfl, fun n tot => ?_, fun p => ?_, fun t2 keys h => ?_⟩
  · unfold Dup.duplicatePercentage
    rcases Nat.eq_zero_or_pos tot with h | h
    · simp [h]
    · simp [h, Nat.pos_iff_ne_zero.mp h]
  · unfold Dup.calculate_severity
    exact ⟨chain_eq_critical_iff, chain_eq_high_iff,
      chain_eq_medium_iff (by norm_num),
      chain_eq_low_iff (by norm_num) (by norm_num)⟩
  · have hne : keys.isEmpty = false := by simpa [List.isEmpty_iff] using h
    refine ⟨⟨keys, t2.rows.length, (Dup.duplicateGroups t2 keys).length,
      ((Dup.duplicateGroups t2 keys).map Prod.snd).sum,
      pyRound2 (Dup.duplicatePercentage
        ((Dup.duplicateGroups t2 keys).map Prod.snd).sum t2.rows.length),
      Dup.calculate_severity (Dup.duplicatePercentage
        ((Dup.duplicateGroups t2 keys).map Prod.snd).sum t2.rows.length),
      Dup.duplicateGroups t2 keys⟩, ?_, rfl, tdr_countP t2 keys⟩
    simp [Dup.check_business_key_duplicates, hne]

/-- C3 witness: `tDup` has 4 duplicate rows out of 5 under its single
column, and a business-key check over a nonempty key list uses the same
severity function. -/
theorem C3_general_duplicates_witness :
    (Dup.check_table_duplicates tDup none).total_duplicate_rows = 4 ∧
    ∃ a, Dup.check_business_key_duplicates tDup ["a"] = Dup.BKResult.ok a ∧
      a.severity = Dup.calculate_severity
        (Dup.duplicatePercentage a.total_duplicate_rows tDup.rows.length) := by
  obtain ⟨h1, -, -, -, h5⟩ := C3_general_duplicates tDup none
  constructor
  · rw [h1]
    decide
  · obtain ⟨a, ha, hsev, -⟩ := h5 tDup ["a"] (by decide)
    exact ⟨a, ha, hsev⟩

/-! ### C9 — schema-duplicates tallies -/

/-- A table counts toward `tables_with_duplicates`: no sub-check
severity is `error`, and the general or the business-key check (the
primary-key dict is not consulted) reported duplicate rows. -/
def tallyDup (tri : Dup.TableTriple) : Bool :=
  Dup.errorFree tri &&
    decide (0 < tri.1.total_duplicate_rows ∨ 0 < tri.2.2.total_duplicate_rows)

/-- A table counts toward `critical_issues`: no sub-check severity is
`error` and some sub-check (primary-key included) is `critical`. -/
def tallyDupCritical (tri : Dup.TableTriple) : Bool :=
  Dup.errorFree tri && decide (Severity.critical ∈ Dup.triSevs tri)

lemma dupStep_fields (acc : Dup.SchemaDup) (tri : Dup.TableTriple) :
    (Dup.dupStep acc tri).total_tables = acc.total_tables ∧
    (Dup.dupStep acc tri).tables_analyzed = acc.tables_analyzed + 1 ∧
    (Dup.dupStep acc tri).table_results = acc.table_results ++ [tri] ∧
    (Dup.dupStep acc tri).tables_with_duplicates =
      acc.tables_with_duplicates + (if tallyDup tri then 1 else 0) ∧
    (Dup.dupStep acc tri).critical_issues =
      acc.critical_issues + (if tallyDupCritical tri then 1 else 0) := by
  by_cases he : Severity.error ∈ Dup.triSevs tri
  · simp [Dup.dupStep, he, tallyDup, tallyDupCritical, Dup.errorFree,
      List.elem_iff]
  · by_cases hd : 0 < tri.1.total_duplicate_rows ∨ 0 < tri.2.2.total_duplicate_rows <;>
      by_cases hc : Severity.critical ∈ Dup.triSevs tri <;>
      by_cases hh : Severity.high ∈ Dup.triSevs tri <;>
      by_cases hm : Severity.medium ∈ Dup.triSevs tri <;>
      by_cases hl : Severity.low ∈ Dup.triSevs tri <;>
      simp [Dup.dupStep, he, hd, hc, hh, hm, hl, tallyDup, tallyDupCritical,
        Dup.errorFree, List.elem_iff]

lemma foldl_dupStep (ts : List Dup.TableTriple) :
    ∀ acc : Dup.SchemaDup,
      (ts.foldl Dup.dupStep acc).total_tables = acc.total_tables ∧
      (ts.foldl Dup.dupStep acc).tables_analyzed = acc.tables_analyzed + ts.length ∧
      (ts.foldl Dup.dupStep acc).table_results = acc.table_results ++ ts ∧
      (ts.foldl Dup.dupStep acc).tables_with_duplicates =
        acc.tables_with_duplicates + ts.countP tallyDup ∧
      (ts.foldl Dup.dupStep acc).critical_issues =
        acc.critical_issues + ts.countP tallyDupCritical := by
  induction ts with
  | nil => intro acc; simp
  | cons tri ts ih =>
    intro acc
    obtain ⟨h1, h2, h3, h4, h5⟩ := ih (Dup.dupStep acc tri)
    obtain ⟨g1, g2, g3, g4, g5⟩ := dupStep_fields acc tri
    refine ⟨?_, ?_, ?_, ?_, ?_⟩
    · rw [List.foldl_cons, h1, g1]
    · rw [List.foldl_cons, h2, g2, List.length_cons]; omega
    · rw [List.foldl_cons, h3, g3, List.append_assoc, List.singleton_append]
    · rw [List.foldl_cons, h4, g4, List.countP_cons]; omega
    · rw [List.foldl_cons, h5, g5, List.countP_cons]; omega

/-- The pk-only scenario of the spec, as a schema-loop input, built from the
real sub-checks on `tPK`: general duplicates `low`/0, primary-key
duplicates `critical`, no business keys (`info`). -/
def pkOnlyTriple : Dup.TableTriple :=
  (Dup.generalOutcome (Dup.check_table_duplicates tPK none),
    Dup.pkOutcome (Dup.check_primary_key_duplicates tPK),
    Dup.bkOutcome (Dup.check_business_key_duplicates tPK []))

lemma general_tPK_severity :
    (Dup.check_table_duplicates tPK none).severity = Severity.low := by
  have hg : Dup.duplicateGroups tPK (tPK.columns.map Column.column_name) = [] := by
    decide
  have h : (Dup.check_table_duplicates tPK none).severity =
      Dup.calculate_severity (Dup.duplicatePercentage
        ((Dup.duplicateGroups tPK (tPK.columns.map Column.column_name)).map
          Prod.snd).sum tPK.rows.length) := rfl
  rw [h, hg]
  norm_num [Dup.duplicatePercentage, Dup.calculate_severity]

lemma triSevs_pkOnly :
    Dup.triSevs pkOnlyTriple = [Severity.low, Severity.critical, Severity.info] := by
  have hpk : (Dup.check_primary_key_duplicates tPK).severity = Severity.critical := by
    decide
  simp [Dup.triSevs, pkOnlyTriple, Dup.generalOutcome, Dup.pkOutcome, Dup.bkOutcome,
    Dup.bkSeverity, general_tPK_severity, hpk, Dup.check_business_key_duplicates]

lemma errorFree_pkOnly : Dup.errorFree pkOnlyTriple = true := by
  simp [Dup.errorFree, triSevs_pkOnly, List.elem_iff]

lemma tallyDup_pkOnly : tallyDup pkOnlyTriple = false := by
  have hg : (Dup.check_table_duplicates tPK none).total_duplicate_rows = 0 := by decide
  simp [tallyDup, pkOnlyTriple, Dup.generalOutcome, Dup.bkOutcome,
    Dup.bkTotalDuplicateRows, Dup.check_business_key_duplicates, hg]

lemma tallyDupCritical_pkOnly : tallyDupCritical pkOnlyTriple = true := by
  simp [tallyDupCritical, errorFree_pkOnly, triSevs_pkOnly]

/-- C9: in the schema duplicate scan, `tables_with_duplicates` counts
exactly the error-free tables whose general or business-key sub-check
reported `total_duplicate_rows > 0`, and `critical_issues` counts the
error-free tables with a `critical` sub-check severity; a table whose
only duplicates are primary-key duplicates (general `low`/0 rows,
pk `critical`, business keys unconfigured) increments `critical_issues`
but not `tables_with_duplicates`. -/
theorem C9_schema_duplicates (ts : List Dup.TableTriple) :
    (Dup.check_schema_duplicates ts).tables_analyzed = ts.length ∧
    (Dup.check_schema_duplicates ts).table_results = ts ∧
    (Dup.check_schema_duplicates ts).tables_with_duplicates =
      ts.countP tallyDup ∧
    (Dup.check_schema_duplicates ts).critical_issues =
      ts.countP tallyDupCritical ∧
    (∀ tri : Dup.TableTriple, Dup.errorFree tri = true →
      (tallyDup tri = true ↔
        0 < tri.1.total_duplicate_rows ∨ 0 < tri.2.2.total_duplicate_rows)) ∧
    (Dup.check_schema_duplicates [pkOnlyTriple]).critical_issues = 1 ∧
    (Dup.check_schema_duplicates [pkOnlyTriple]).tables_with_duplicates = 0 := by
  obtain ⟨h1, h2, h3, h4, h5⟩ := foldl_dupStep ts (Dup.dupInit ts.length)
  obtain ⟨k1, k2, k3, k4, k5⟩ := foldl_dupStep [pkOnlyTriple] (Dup.dupInit 1)
  refine ⟨?_, ?_, ?_, ?_, fun tri hef => ?_, ?_, ?_⟩
  · simpa [Dup.dupInit, Dup.check_schema_duplicates] using h2
  · simpa [Dup.dupInit, Dup.check_schema_duplicates] using h3
  · simpa [Dup.dupInit, Dup.check_schema_duplicates] using h4
  · simpa [Dup.dupInit, Dup.check_schema_duplicates] using h5
  · simp [tallyDup, hef]
  · have : (Dup.check_schema_duplicates [pkOnlyTriple]).critical_issues =
        [pkOnlyTriple].countP tallyDupCritical := by
      simpa [Dup.dupInit, Dup.check_schema_duplicates] using k5
    rw [this]
    simp [tallyDupCritical_pkOnly]
  · have : (Dup.check_schema_duplicates [pkOnlyTriple]).tables_with_duplicates =
        [pkOnlyTriple].countP tallyDup := by
      simpa [Dup.dupInit, Dup.check_schema_duplicates] using k4
    rw [this]
    simp [tallyDup_pkOnly]

/-- C9 witness: the error-free condition discharged on the concrete
pk-only table. -/
theorem C9_schema_duplicates_witness :
    tallyDup pkOnlyTriple = true ↔
      0 < pkOnlyTriple.1.total_duplicate_rows ∨
        0 < pkOnlyTriple.2.2.total_duplicate_rows :=
  (C9_schema_duplicates []).2.2.2.2.1 pkOnlyTriple errorFree_pkOnly

end PGAnalyzer
